import Mathlib

/-!
# DS3231 real-time-clock driver (NodeMCU-32s, I2C)

A shallow embedding of `src/src/i2c_ds3231.c`, `src/src/main.c` and
`src/include/i2c_ds3231.h`, followed by theorems about it.

Conventions of the embedding.

* `uint8_t` values are natural numbers below 256; every conversion to `uint8_t`
  is an explicit reduction modulo 256 (`to_uint8`).  `int` values are integers.
* A C string is the list of its characters before the terminating NUL.
* The I2C bus, the FreeRTOS mutex and the scheduler are the environment: what
  they answer during one driver call is a value of `Env`, and what the driver
  does to them is recorded as a list of `BusEvent`s.
* A run of C code that reaches undefined behaviour ends in `Ret.undefined`.
-/

set_option maxRecDepth 100000

namespace DS3231

/-! ## Constants of `i2c_ds3231.h` -/

/-- The header's `DS3231_ADDRESS`: the 7-bit bus address of the device. -/
def DS3231_ADDRESS : Nat := 0x68

/-- The header's `DS3231_TIME_ADDRESS`: the seconds register. -/
def DS3231_TIME_ADDRESS : Nat := 0x00

/-- The header's `DS3231_STATUS_REGISTER_ADDRESS`. -/
def DS3231_STATUS_REGISTER_ADDRESS : Nat := 0x0F

/-- The header's `DS3231_ADDRESS_TEMPERATURE`. -/
def DS3231_ADDRESS_TEMPERATURE : Nat := 0x11

/-- The header's `DS3231_12HOUR_FLAG`: bit 6 of the hours register. -/
def DS3231_12HOUR_FLAG : Nat := 0x40

/-- The header's `DS3231_12HOUR_MASK`: the low five bits of the hours register. -/
def DS3231_12HOUR_MASK : Nat := 0x1F

/-- The header's `DS3231_PM_FLAG`: bit 5 of the hours register. -/
def DS3231_PM_FLAG : Nat := 0x20

/-- The header's `DS3231_MONTH_MASK`. -/
def DS3231_MONTH_MASK : Nat := 0x1F

/-- The values of `esp_err_t` that the driver's documentation names. -/
inductive esp_err_t where
  | ESP_OK
  | ESP_FAIL
  | ESP_ERR_NO_MEM
  | ESP_ERR_INVALID_ARG
  | ESP_ERR_INVALID_STATE
  | ESP_ERR_TIMEOUT
  deriving DecidableEq, Repr

open esp_err_t

/-! ## Machine integers -/

/-- Conversion of an `int` to `uint8_t`: reduction modulo 256. -/
def to_uint8 (x : Int) : Nat := (x % 256).toNat

/-- Reading an 8-bit pattern as `int8_t` (two's complement). -/
def to_int8 (b : Nat) : Int := if b % 256 < 128 then ((b % 256 : Nat) : Int) else ((b % 256 : Nat) : Int) - 256

/-- Reading a 16-bit pattern as `int16_t` (two's complement). -/
def to_int16 (x : Int) : Int := if x % 65536 < 32768 then x % 65536 else x % 65536 - 65536

/-- Reading a 32-bit pattern as `int` (two's complement). -/
def to_int32 (n : Nat) : Int := if n % 2 ^ 32 < 2 ^ 31 then ((n % 2 ^ 32 : Nat) : Int) else ((n % 2 ^ 32 : Nat) : Int) - 2 ^ 32

/-- The 32-bit pattern of an `int`. -/
def of_int32 (x : Int) : Nat := (x % 2 ^ 32).toNat

/-- The smallest `int` of the target (32 bits). -/
def INT_MIN : Int := -2147483648

/-- The largest `int` of the target (32 bits). -/
def INT_MAX : Int := 2147483647

/-! ## Register codec (`i2c_ds3231.c`, lines 132-140) -/

/-- The C function `bcd2dec`: `return value - 6 * (value >> 4);`, computed in
`int` and converted to `uint8_t`. -/
def bcd2dec (value : Nat) : Nat :=
  to_uint8 ((value : Int) - 6 * ((value >>> 4 : Nat) : Int))

/-- The C function `dec2bcd`: `return value + 6 * (value / 10);`, computed in
`int` and converted to `uint8_t`. -/
def dec2bcd (value : Nat) : Nat :=
  to_uint8 ((value : Int) + 6 * ((value / 10 : Nat) : Int))

/-- The hour decoding of `ds3231_get_date_time` (lines 177-188): the value
stored in `tm_hour` for the hours-register byte `r2`. -/
def decode_hour (r2 : Nat) : Int :=
  if r2 &&& DS3231_12HOUR_FLAG ≠ 0 then
    let tm_hour : Int := (bcd2dec (to_uint8 ((r2 &&& DS3231_12HOUR_MASK : Nat) : Int)) : Int) - 1
    if r2 &&& DS3231_PM_FLAG ≠ 0 then tm_hour + 12 else tm_hour
  else
    (bcd2dec r2 : Int)

/-- The fields of `struct tm` that `ds3231_get_date_time` fills. -/
structure tm where
  tm_sec : Int
  tm_min : Int
  tm_hour : Int
  tm_wday : Int
  tm_mday : Int
  tm_mon : Int
  tm_year : Int
  tm_isdst : Int
  deriving DecidableEq, Repr

/-- The register decoding of `ds3231_get_date_time` (lines 174-193):
the `struct tm` built from the seven bytes read at register 0x00. -/
def decode_registers (r0 r1 r2 r3 r4 r5 r6 : Nat) : tm :=
  { tm_sec := (bcd2dec r0 : Int)
    tm_min := (bcd2dec r1 : Int)
    tm_hour := decode_hour r2
    tm_wday := (bcd2dec r3 : Int) - 1
    tm_mday := (bcd2dec r4 : Int)
    tm_mon := (bcd2dec (to_uint8 ((r5 &&& DS3231_MONTH_MASK : Nat) : Int)) : Int) - 1
    tm_year := (bcd2dec r6 : Int) + 100
    tm_isdst := 0 }

/-- The BCD byte of a two-digit decimal, as the register layout defines it:
tens digit in the high nibble, units digit in the low nibble. -/
def bcd_byte (d : Nat) : Nat := 16 * (d / 10) + d % 10

/-- The value a 12-hour clock shows at hour `h` of the day: 12 at midnight and
at noon, `h % 12` otherwise. -/
def clock12 (h : Nat) : Nat := if h % 12 = 0 then 12 else h % 12

/-- The hours-register byte that holds hour `h` in 12-hour form, written from
the register layout (the driver has no 12-hour encoder): bit 6 set, bit 5 set
exactly from noon on, low five bits the BCD of the 12-hour clock value. -/
def hour12_register_byte (h : Nat) : Nat :=
  DS3231_12HOUR_FLAG ||| (if 12 ≤ h then DS3231_PM_FLAG else 0) ||| bcd_byte (clock12 h)

/-! ## Bus access (`i2c_ds3231.c`, lines 54-118) -/

/-- What the environment answers during one call of `ds3231_read_data` or
`ds3231_write_data`. -/
structure Env where
  /-- Whether `mutex != NULL`, that is, `i2c_ds3231_init` has created the gate. -/
  mutex_created : Bool
  /-- Whether `xSemaphoreTake(mutex, pdMS_TO_TICKS(1000))` returns `pdTRUE`. -/
  take_ok : Bool
  /-- The result the I2C transport reports for the exchange, when attempted. -/
  transport_result : esp_err_t
  /-- The content of the receive buffer after a write-then-read exchange. -/
  rx_data : List Nat
  deriving DecidableEq, Repr

/-- What the driver does to the gate and to the transport, in order. -/
inductive BusEvent where
  /-- A call of `xSemaphoreTake(mutex, ...)` and whether it acquired the gate. -/
  | take (acquired : Bool)
  /-- A call of `xSemaphoreGive(mutex)`. -/
  | give
  /-- A call of `i2c_master_write_read_device`: device, register address,
  address size, number of bytes to read. -/
  | write_read (device address address_size rx_buffer_size : Nat)
  /-- The write exchange run by `i2c_master_cmd_begin`: device, register
  address, address size, payload bytes. -/
  | write (device address address_size : Nat) (payload : List Nat)
  deriving DecidableEq, Repr

open BusEvent

/-- The C function `ds3231_read_data` (lines 54-90): the returned code, the
receive buffer afterwards, and the events in order. -/
def ds3231_read_data (env : Env) (address address_size : Nat) (rx_buffer : List Nat)
    (rx_buffer_size : Nat) : esp_err_t × List Nat × List BusEvent :=
  let result := ESP_OK
  if env.mutex_created then
    if env.take_ok then
      (env.transport_result, env.rx_data,
        [take true, write_read DS3231_ADDRESS address address_size rx_buffer_size, give])
    else
      (result, rx_buffer, [take false, give])
  else
    (result, rx_buffer, [])

/-- The C function `ds3231_write_data` (lines 92-118): the returned code and
the events in order. -/
def ds3231_write_data (env : Env) (address address_size : Nat) (tx_buffer : List Nat)
    (tx_buffer_size : Nat) : esp_err_t × List BusEvent :=
  let result := ESP_OK
  if env.mutex_created then
    if env.take_ok then
      (env.transport_result,
        [take true, write DS3231_ADDRESS address address_size (tx_buffer.take tx_buffer_size), give])
    else
      (result, [take false, give])
  else
    (result, [])

/-- Whether an event is an exchange on the I2C transport. -/
def is_transport : BusEvent → Bool
  | write_read _ _ _ _ => true
  | write _ _ _ _ => true
  | _ => false

/-- The number of successful acquisitions of the gate in a run. -/
def acquisitions (events : List BusEvent) : Nat := events.count (take true)

/-- The number of releases of the gate in a run. -/
def releases (events : List BusEvent) : Nat := events.count give

/-- An environment in which the gate exists and is free and the device answers
the exchange with `ESP_OK`, delivering the bytes `rx`. -/
def bus_ready (rx : List Nat) : Env :=
  { mutex_created := true, take_ok := true, transport_result := ESP_OK, rx_data := rx }

/-- An environment in which `i2c_ds3231_init` was never called: no gate exists. -/
def bus_uninitialised : Env :=
  { mutex_created := false, take_ok := false, transport_result := ESP_OK, rx_data := [] }

/-- An environment in which the gate exists but another task holds it for
longer than the wait bound. -/
def bus_busy : Env :=
  { mutex_created := true, take_ok := false, transport_result := ESP_OK, rx_data := [] }

/-! ## Power loss and temperature (`i2c_ds3231.c`, lines 120-130 and 307-317) -/

/-- The C function `ds3231_power_lost`: the returned code, `*status` and
`*status_register` afterwards, and the events. -/
def ds3231_power_lost (env : Env) (status status_register : Nat) :
    esp_err_t × Nat × Nat × List BusEvent :=
  match ds3231_read_data env DS3231_STATUS_REGISTER_ADDRESS 1 [status_register] 1 with
  | (result, buffer, events) =>
    let status_register := buffer.headD status_register
    if result = ESP_OK then
      (result, to_uint8 ((status_register >>> 7 : Nat) : Int), status_register, events)
    else
      (result, status, status_register, events)

/-- The C operator `<<` on `int`, on the 32-bit two's-complement pattern. -/
def int_shl (x : Int) (n : Nat) : Int := to_int32 (of_int32 x <<< n)

/-- The C operator `|` on `int`. -/
def int_or (x y : Int) : Int := to_int32 (of_int32 x ||| of_int32 y)

/-- The C operator `&` on `int`. -/
def int_and (x y : Int) : Int := to_int32 (of_int32 x &&& of_int32 y)

/-- The C operator `~` on `int`. -/
def int_not (x : Int) : Int := to_int32 (of_int32 x ^^^ (2 ^ 32 - 1))

/-- The integer that `ds3231_get_temperature` multiplies by 0.25:
`(int16_t)(int8_t)data[0] << 2 | data[1] >> 6`. -/
def temperature_quarters (data0 data1 : Nat) : Int :=
  int_or (int_shl (to_int16 (to_int8 data0)) 2) ((data1 >>> 6 : Nat) : Int)

/-- The C function `ds3231_get_temperature` (lines 307-317): the returned code,
`*temp` afterwards, and the events.  `data0` and `data1` are what the local
array `data` holds before the read.  The product with 0.25 is exact in `float`
for every value of `temperature_quarters`, so `*temp` is a rational number. -/
def ds3231_get_temperature (env : Env) (data0 data1 : Nat) (temp : ℚ) :
    esp_err_t × ℚ × List BusEvent :=
  match ds3231_read_data env DS3231_ADDRESS_TEMPERATURE 1 [data0, data1] 2 with
  | (result, data, events) =>
    if result = ESP_OK then
      (result, (temperature_quarters (data.getD 0 data0) (data.getD 1 data1) : ℚ) * 0.25, events)
    else
      (result, temp, events)

/-! ## The console task's status handling (`main.c`) -/

/-- The globals `osf_bit_value` and `status_reg_value` of `i2c_ds3231.h`. -/
structure Globals where
  osf_bit_value : Nat
  status_reg_value : Nat
  deriving DecidableEq, Repr

/-- The startup check of `app_main` (lines 129-131).  `none` is the abort of
`ESP_ERROR_CHECK` on a result other than `ESP_OK`. -/
def app_main_power_check (env : Env) : Option Globals × List BusEvent :=
  let osf_bit_value := 0
  let status_reg_value := 0
  match ds3231_power_lost env osf_bit_value status_reg_value with
  | (result, osf_bit_value, status_reg_value, events) =>
    if result = ESP_OK then
      (some { osf_bit_value := osf_bit_value, status_reg_value := status_reg_value }, events)
    else
      (none, events)

/-- The `OK` command of `serial_input_task` (lines 78-93).  `none` is the abort
of `ESP_ERROR_CHECK` on a result other than `ESP_OK`. -/
def serial_ok_command (env : Env) (g : Globals) : Option Globals × List BusEvent :=
  if g.osf_bit_value ≠ 0 then
    let status_reg_value := to_uint8 (int_and (g.status_reg_value : Int) (int_not (int_shl 1 7)))
    match ds3231_write_data env DS3231_STATUS_REGISTER_ADDRESS 1 [status_reg_value] 1 with
    | (result, events) =>
      if result = ESP_OK then
        (some { osf_bit_value := g.osf_bit_value, status_reg_value := 0 }, events)
      else
        (none, events)
  else
    (some g, [])

/-! ## Setting the time (`i2c_ds3231.c`, lines 231-305) -/

/-- The outcome of running a piece of C code. -/
inductive Ret (α : Type) where
  /-- The code returns a value. -/
  | ret (value : α)
  /-- The code reaches undefined behaviour. -/
  | undefined
  /-- The loop bound of the embedding is used up (`parse_loop_total`: it never is). -/
  | out_of_fuel
  deriving DecidableEq, Repr

open Ret

/-- Sequencing of C code: the continuation runs on a returned value. -/
def Ret.bind {α β : Type} (r : Ret α) (k : α → Ret β) : Ret β :=
  match r with
  | ret a => k a
  | undefined => undefined
  | out_of_fuel => out_of_fuel

/-- The C library's `isspace` in the "C" locale. -/
def isspace (c : Char) : Bool :=
  c = ' ' || (9 ≤ c.toNat && c.toNat ≤ 13)

/-- The C library's `isdigit`. -/
def isdigit (c : Char) : Bool :=
  48 ≤ c.toNat && c.toNat ≤ 57

/-- The white-space skipping at the start of `atoi`. -/
def skip_space : List Char → List Char
  | [] => []
  | c :: cs => if isspace c then skip_space cs else c :: cs

/-- The digit loop of `atoi`: the number read from the longest run of digits,
starting from the accumulator `acc`. -/
def atoi_digits : List Char → Nat → Nat
  | [], acc => acc
  | c :: cs, acc => if isdigit c then atoi_digits cs (10 * acc + (c.toNat - 48)) else acc

/-- The number that `atoi` reads from a string: white space is skipped, one
sign is accepted, then the longest run of digits is converted (0 when there is
none); whatever follows is ignored. -/
def atoi_value (s : List Char) : Int :=
  match skip_space s with
  | [] => 0
  | c :: cs =>
    if c = '-' then -((atoi_digits cs 0 : Nat) : Int)
    else if c = '+' then ((atoi_digits cs 0 : Nat) : Int)
    else ((atoi_digits (c :: cs) 0 : Nat) : Int)

/-- The C library's `atoi`, applied to a pointer (`none` is `NULL`).  A null
argument, and a number that does not fit `int`, are undefined behaviour. -/
def atoi (ptr : Option (List Char)) : Ret Int :=
  match ptr with
  | none => undefined
  | some s => if INT_MIN ≤ atoi_value s ∧ atoi_value s ≤ INT_MAX then ret (atoi_value s) else undefined

/-- The first phase of `strtok`: skip the leading delimiters. -/
def skip_delimiters (delim : List Char) : List Char → List Char
  | [] => []
  | c :: cs => if c ∈ delim then skip_delimiters delim cs else c :: cs

/-- The second phase of `strtok`: the token up to the next delimiter, and the
string after that delimiter (the empty string when the token ends the string). -/
def scan_token (delim : List Char) : List Char → List Char × List Char
  | [] => ([], [])
  | c :: cs => if c ∈ delim then ([], cs) else ((c :: (scan_token delim cs).1), (scan_token delim cs).2)

/-- The C library's `strtok`, with its saved position made explicit: the token
(`none` is `NULL`) and the saved position for the next call. -/
def strtok (delim : List Char) (saved : List Char) : Option (List Char) × List Char :=
  match skip_delimiters delim saved with
  | [] => (none, [])
  | c :: cs => (some (scan_token delim (c :: cs)).1, (scan_token delim (c :: cs)).2)

/-- The local `char delim[] = ","`. -/
def delim : List Char := [',']

/-- The delimiter count of lines 249-253 over the first `str_len` characters;
the counter is a `uint8_t`. -/
def count_delimiters (date_time_str : List Char) (str_len : Nat) : Nat :=
  (date_time_str.take str_len).foldl
    (fun num_of_delimiters c => if c = ',' then (num_of_delimiters + 1) % 256 else num_of_delimiters) 0

/-- The seven `int` locals of `ds3231_set_date_time`. -/
structure Fields where
  sec : Int
  min : Int
  hour : Int
  dow : Int
  day : Int
  month : Int
  year : Int
  deriving DecidableEq, Repr

/-- The conversions of lines 266-277: which local receives `atoi(ptr)` at a
given value of `position`. -/
def convert_field (position : Nat) (ptr : Option (List Char)) (f : Fields) : Ret Fields :=
  if position = 0 then (atoi ptr).bind fun v => ret { f with min := v }
  else if position = 1 then (atoi ptr).bind fun v => ret { f with hour := v }
  else if position = 2 then (atoi ptr).bind fun v => ret { f with dow := v }
  else if position = 3 then (atoi ptr).bind fun v => ret { f with day := v }
  else if position = 4 then (atoi ptr).bind fun v => ret { f with month := v }
  else if position = 5 then (atoi ptr).bind fun v => ret { f with year := v }
  else ret f

/-- The loop `while (ptr != NULL)` of lines 262-280, entered with the current
`ptr`, the saved position of `strtok`, the `uint8_t position` and the locals.
The first argument bounds the number of iterations. -/
def parse_loop : Nat → Option (List Char) → List Char → Nat → Fields → Ret Fields
  | _, none, _, _, f => ret f
  | 0, some _, _, _, _ => out_of_fuel
  | fuel + 1, some _, saved, position, f =>
    (convert_field position (strtok delim saved).1 f).bind fun f =>
      parse_loop fuel (strtok delim saved).1 (strtok delim saved).2 ((position + 1) % 256) f

/-- The two ways `ds3231_set_date_time` ends once its input is converted. -/
inductive SetDateTimeExit where
  /-- One of the statements `return ESP_ERR_INVALID_ARG;`. -/
  | rejected
  /-- The final `return ds3231_write_data(DS3231_TIME_ADDRESS, 1, data, 7);`
  with the content of `data`. -/
  | bus_write (data : List Nat)
  deriving DecidableEq, Repr

open SetDateTimeExit

/-- The checks and the encoding of lines 282-302. -/
def check_and_encode (f : Fields) : SetDateTimeExit :=
  if f.sec < 0 ∨ f.sec > 59 ∨ f.min < 0 ∨ f.min > 59 ∨ f.hour < 0 ∨ f.hour > 23 ∨
      f.dow < 1 ∨ f.dow > 7 ∨ f.day < 1 ∨ f.day > 31 ∨ f.month < 1 ∨ f.month > 12 ∨
      f.year < 0 ∨ f.year > 99 then
    rejected
  else if f.year.tmod 4 = 0 ∧ f.month = 2 ∧ (f.day < 1 ∨ f.day > 29) then
    rejected
  else if f.year.tmod 4 ≠ 0 ∧ f.month = 2 ∧ (f.day < 1 ∨ f.day > 28) then
    rejected
  else if f.day = 31 ∧ f.month ≠ 1 ∧ f.month ≠ 3 ∧ f.month ≠ 5 ∧ f.month ≠ 7 ∧ f.month ≠ 8 ∧
      f.month ≠ 10 ∧ f.month ≠ 12 then
    rejected
  else
    bus_write [dec2bcd (to_uint8 f.sec), dec2bcd (to_uint8 f.min), dec2bcd (to_uint8 f.hour),
      dec2bcd (to_uint8 f.dow), dec2bcd (to_uint8 f.day), dec2bcd (to_uint8 f.month),
      dec2bcd (to_uint8 f.year)]

/-- The body of `ds3231_set_date_time` up to its `return` statement
(lines 235-302): which `return` is reached. -/
def ds3231_set_date_time_exit (date_time_str : List Char) : Ret SetDateTimeExit :=
  let str_len := date_time_str.length % 256
  let num_of_delimiters := count_delimiters date_time_str str_len
  if num_of_delimiters ≠ 6 then
    ret rejected
  else
    (atoi (strtok delim date_time_str).1).bind fun sec =>
      (parse_loop (date_time_str.length + 1) (strtok delim date_time_str).1
        (strtok delim date_time_str).2 0
        { sec := sec, min := 0, hour := 0, dow := 0, day := 0, month := 0, year := 0 }).bind
      fun f => ret (check_and_encode f)

/-- The C function `ds3231_set_date_time`: the returned code and the events. -/
def ds3231_set_date_time (env : Env) (date_time_str : List Char) :
    Ret (esp_err_t × List BusEvent) :=
  (ds3231_set_date_time_exit date_time_str).bind fun e =>
    match e with
    | rejected => ret (ESP_ERR_INVALID_ARG, [])
    | bus_write data => ret (ds3231_write_data env DS3231_TIME_ADDRESS 1 data 7)

/-! ## The set-time command as the specification describes it -/

/-- The string of seven fields separated by six commas. -/
def join7 (f1 f2 f3 f4 f5 f6 f7 : List Char) : List Char :=
  f1 ++ ',' :: (f2 ++ ',' :: (f3 ++ ',' :: (f4 ++ ',' :: (f5 ++ ',' :: (f6 ++ ',' :: f7)))))

/-- A non-empty run of decimal digits. -/
def is_digits (ds : List Char) : Bool := !ds.isEmpty && ds.all isdigit

/-- A decimal integer field: an optional sign followed by at least one digit. -/
def is_decimal_integer : List Char → Bool
  | [] => false
  | c :: cs => if c = '-' ∨ c = '+' then is_digits cs else is_digits (c :: cs)

/-- The number written by a run of decimal digits. -/
def digits_value (ds : List Char) : Nat :=
  ds.foldl (fun n c => 10 * n + (c.toNat - 48)) 0

/-- The integer a decimal integer field denotes. -/
def decimal_value : List Char → Int
  | [] => 0
  | c :: cs =>
    if c = '-' then -((digits_value cs : Nat) : Int)
    else if c = '+' then ((digits_value cs : Nat) : Int)
    else ((digits_value (c :: cs) : Nat) : Int)

/-- A field of the set-time command as the specification describes it: a
decimal integer that a C `int` can hold. -/
def int_field (f : List Char) : Prop :=
  is_decimal_integer f = true ∧ INT_MIN ≤ decimal_value f ∧ decimal_value f ≤ INT_MAX

instance (f : List Char) : Decidable (int_field f) := by
  unfold int_field; infer_instance

/-- A field that `strtok` returns as one token: not empty and without a comma. -/
def token_field (f : List Char) : Prop := f ≠ [] ∧ ',' ∉ f

instance (f : List Char) : Decidable (token_field f) := by
  unfold token_field; infer_instance

/-- The length of a month as the specification gives it: February has 29 days
when the year is a multiple of 4 and 28 otherwise; months 4, 6, 9 and 11 have
30; the others have 31. -/
def days_in_month (month year : Int) : Int :=
  if month = 2 then (if year % 4 = 0 then 29 else 28)
  else if month = 4 ∨ month = 6 ∨ month = 9 ∨ month = 11 then 30
  else 31

/-- A record the specification accepts: every field in its declared range and
the day within the length of the month. -/
def valid_record (f : Fields) : Prop :=
  (0 ≤ f.sec ∧ f.sec ≤ 59) ∧ (0 ≤ f.min ∧ f.min ≤ 59) ∧ (0 ≤ f.hour ∧ f.hour ≤ 23) ∧
  (1 ≤ f.dow ∧ f.dow ≤ 7) ∧ (1 ≤ f.day ∧ f.day ≤ 31) ∧ (1 ≤ f.month ∧ f.month ≤ 12) ∧
  (0 ≤ f.year ∧ f.year ≤ 99) ∧ f.day ≤ days_in_month f.month f.year

/-- The seven data bytes of a record: the BCD byte of each field. -/
def record_bytes (f : Fields) : List Nat :=
  [bcd_byte f.sec.toNat, bcd_byte f.min.toNat, bcd_byte f.hour.toNat, bcd_byte f.dow.toNat,
    bcd_byte f.day.toNat, bcd_byte f.month.toNat, bcd_byte f.year.toNat]

instance (f : Fields) : Decidable (valid_record f) := by
  unfold valid_record; infer_instance

/-- The record the seven decimal integer fields of a command denote. -/
def decimal_record (f1 f2 f3 f4 f5 f6 f7 : List Char) : Fields :=
  { sec := decimal_value f1, min := decimal_value f2, hour := decimal_value f3,
    dow := decimal_value f4, day := decimal_value f5, month := decimal_value f6,
    year := decimal_value f7 }

/-- A field that `atoi` converts to an `int`, whatever its text: one token
whose number fits `int`. -/
def atoi_field (f : List Char) : Prop :=
  token_field f ∧ INT_MIN ≤ atoi_value f ∧ atoi_value f ≤ INT_MAX

instance (f : List Char) : Decidable (atoi_field f) := by
  unfold atoi_field; infer_instance

/-- The record that `atoi` reads from seven fields. -/
def atoi_record (f1 f2 f3 f4 f5 f6 f7 : List Char) : Fields :=
  { sec := atoi_value f1, min := atoi_value f2, hour := atoi_value f3,
    dow := atoi_value f4, day := atoi_value f5, month := atoi_value f6,
    year := atoi_value f7 }

/-- A command of 269 characters with seven commas: the valid command
`0,0,0,1,1,1,0`, then 255 more digits `0`, then a comma. -/
def long_command : List Char :=
  join7 ['0'] ['0'] ['0'] ['1'] ['1'] ['1'] ['0'] ++ List.replicate 255 '0' ++ [',']

/-- The token that call number `n + 1` of `strtok` returns while
`ds3231_set_date_time` splits the string `s`: call 1 is `strtok(date_time_str, delim)`
and every later call is `strtok(NULL, delim)`; `none` is `NULL`. -/
def nth_strtok : Nat → List Char → Option (List Char)
  | 0, s => (strtok delim s).1
  | n + 1, s => nth_strtok n (strtok delim s).2

/-- The string of a list of fields separated by commas. -/
def join_fields : List (List Char) → List Char
  | [] => []
  | [f] => f
  | f :: g :: fs => f ++ ',' :: join_fields (g :: fs)

/-! ## Theorems -/

/-! ### Setting the time -/

@[simp] theorem Ret.ret_bind {α β : Type} (a : α) (k : α → Ret β) : (ret a).bind k = k a := rfl
@[simp] theorem Ret.undefined_bind {α β : Type} (k : α → Ret β) : (undefined : Ret α).bind k = undefined := rfl
@[simp] theorem Ret.out_of_fuel_bind {α β : Type} (k : α → Ret β) : (out_of_fuel : Ret α).bind k = out_of_fuel := rfl
@[simp] theorem Ret.bind_assoc {α β γ : Type} (r : Ret α) (k : α → Ret β) (j : β → Ret γ) :
    (r.bind k).bind j = r.bind fun a => (k a).bind j := by
  cases r <;> rfl

theorem scan_token_field (f rest : List Char) (h : ',' ∉ f) :
    scan_token delim (f ++ ',' :: rest) = (f, rest) := by
  induction f with
  | nil => simp [scan_token, delim]
  | cons c f ih =>
    have hc : c ≠ ',' := fun e => h (by simp [e])
    have hf : ',' ∉ f := fun e => h (by simp [e])
    have hm : c ∉ delim := by simp [delim, hc]
    simp [scan_token, hm, ih hf]

theorem scan_token_last (f : List Char) (h : ',' ∉ f) :
    scan_token delim f = (f, []) := by
  induction f with
  | nil => simp [scan_token]
  | cons c f ih =>
    have hc : c ≠ ',' := fun e => h (by simp [e])
    have hf : ',' ∉ f := fun e => h (by simp [e])
    have hm : c ∉ delim := by simp [delim, hc]
    simp [scan_token, hm, ih hf]

theorem strtok_field (f rest : List Char) (h : token_field f) :
    strtok delim (f ++ ',' :: rest) = (some f, rest) := by
  obtain ⟨hne, hfree⟩ := h
  cases f with
  | nil => exact absurd rfl hne
  | cons c f =>
    have hc : c ≠ ',' := fun e => hfree (by simp [e])
    have hs : skip_delimiters delim (c :: (f ++ ',' :: rest)) = c :: (f ++ ',' :: rest) := by
      simp [skip_delimiters, delim, hc]
    have hsc := scan_token_field (c :: f) rest hfree
    simp only [List.cons_append] at hsc
    show strtok delim (c :: (f ++ ',' :: rest)) = _
    unfold strtok
    rw [hs]
    simp only [hsc]

theorem strtok_last (f : List Char) (h : token_field f) :
    strtok delim f = (some f, []) := by
  obtain ⟨hne, hfree⟩ := h
  cases f with
  | nil => exact absurd rfl hne
  | cons c f =>
    have hc : c ≠ ',' := fun e => hfree (by simp [e])
    have hs : skip_delimiters delim (c :: f) = c :: f := by
      simp [skip_delimiters, delim, hc]
    unfold strtok
    rw [hs]
    simp only [scan_token_last (c :: f) hfree]

theorem strtok_nil : strtok delim [] = (none, []) := rfl

theorem count_step_field (f rest : List Char) (acc : Nat) (h : ',' ∉ f) :
    (f ++ rest).foldl (fun n c => if c = ',' then (n + 1) % 256 else n) acc
      = rest.foldl (fun n c => if c = ',' then (n + 1) % 256 else n) acc := by
  induction f with
  | nil => rfl
  | cons c f ih =>
    have hc : c ≠ ',' := fun e => h (by simp [e])
    have hf : ',' ∉ f := fun e => h (by simp [e])
    simp [List.foldl_cons, hc, ih hf]

theorem count_delimiters_join7 (f1 f2 f3 f4 f5 f6 f7 : List Char)
    (h1 : ',' ∉ f1) (h2 : ',' ∉ f2) (h3 : ',' ∉ f3) (h4 : ',' ∉ f4)
    (h5 : ',' ∉ f5) (h6 : ',' ∉ f6) (h7 : ',' ∉ f7)
    (hlen : (join7 f1 f2 f3 f4 f5 f6 f7).length < 256) :
    count_delimiters (join7 f1 f2 f3 f4 f5 f6 f7)
      ((join7 f1 f2 f3 f4 f5 f6 f7).length % 256) = 6 := by
  unfold count_delimiters
  rw [Nat.mod_eq_of_lt hlen, List.take_length]
  unfold join7
  rw [count_step_field f1 _ _ h1, List.foldl_cons, if_pos rfl,
    count_step_field f2 _ _ h2, List.foldl_cons, if_pos rfl,
    count_step_field f3 _ _ h3, List.foldl_cons, if_pos rfl,
    count_step_field f4 _ _ h4, List.foldl_cons, if_pos rfl,
    count_step_field f5 _ _ h5, List.foldl_cons, if_pos rfl,
    count_step_field f6 _ _ h6, List.foldl_cons, if_pos rfl]
  have := count_step_field f7 [] 6 h7
  simp only [List.append_nil] at this
  simpa using this

theorem parse_loop_done (fuel : Nat) (saved : List Char) (position : Nat) (f : Fields) :
    parse_loop fuel none saved position f = ret f := by
  cases fuel <;> rfl

theorem parse_loop_step (fuel : Nat) (t saved : List Char) (position : Nat) (f : Fields) :
    parse_loop (fuel + 1) (some t) saved position f
      = (convert_field position (strtok delim saved).1 f).bind fun g =>
          parse_loop fuel (strtok delim saved).1 (strtok delim saved).2 ((position + 1) % 256) g :=
  rfl

theorem exit_join7 (f1 f2 f3 f4 f5 f6 f7 : List Char)
    (h1 : token_field f1) (h2 : token_field f2) (h3 : token_field f3) (h4 : token_field f4)
    (h5 : token_field f5) (h6 : token_field f6) (h7 : token_field f7)
    (hlen : (join7 f1 f2 f3 f4 f5 f6 f7).length < 256) :
    ds3231_set_date_time_exit (join7 f1 f2 f3 f4 f5 f6 f7)
      = (atoi (some f1)).bind fun sec => (atoi (some f2)).bind fun min =>
        (atoi (some f3)).bind fun hour => (atoi (some f4)).bind fun dow =>
        (atoi (some f5)).bind fun day => (atoi (some f6)).bind fun month =>
        (atoi (some f7)).bind fun year =>
          ret (check_and_encode
            { sec := sec, min := min, hour := hour, dow := dow, day := day, month := month,
              year := year }) := by
  have hcount := count_delimiters_join7 f1 f2 f3 f4 f5 f6 f7 h1.2 h2.2 h3.2 h4.2 h5.2 h6.2 h7.2 hlen
  have hfuel : ∃ k, (join7 f1 f2 f3 f4 f5 f6 f7).length + 1 = k + 7 := by
    refine ⟨(join7 f1 f2 f3 f4 f5 f6 f7).length - 6, ?_⟩
    have : 6 ≤ (join7 f1 f2 f3 f4 f5 f6 f7).length := by
      simp [join7]; omega
    omega
  obtain ⟨k, hk⟩ := hfuel
  unfold ds3231_set_date_time_exit
  simp only [hcount, hk, ne_eq, not_true_eq_false, if_false]
  unfold join7
  rw [strtok_field f1 _ h1]
  simp only [parse_loop_step, parse_loop_done, strtok_field _ _ h2, strtok_field _ _ h3,
    strtok_field _ _ h4, strtok_field _ _ h5, strtok_field _ _ h6, strtok_last _ h7, strtok_nil,
    convert_field, Ret.bind_assoc, Ret.ret_bind]
  simp

theorem atoi_digits_eq (ds : List Char) (acc : Nat) (h : ds.all isdigit = true) :
    atoi_digits ds acc = ds.foldl (fun n c => 10 * n + (c.toNat - 48)) acc := by
  induction ds generalizing acc with
  | nil => rfl
  | cons c ds ih =>
    simp only [List.all_cons, Bool.and_eq_true] at h
    simp [atoi_digits, h.1, ih _ h.2]

theorem isdigit_not_space (c : Char) (h : isdigit c = true) : isspace c = false := by
  unfold isdigit at h
  unfold isspace
  simp only [Bool.and_eq_true, decide_eq_true_eq] at h
  have hne : c ≠ ' ' := by
    intro e
    rw [e] at h
    exact absurd h.1 (by decide)
  simp [hne]
  omega

theorem isdigit_not_sign (c : Char) (h : isdigit c = true) : c ≠ '-' ∧ c ≠ '+' ∧ c ≠ ',' := by
  refine ⟨?_, ?_, ?_⟩ <;> intro e <;> rw [e] at h <;> exact absurd h (by decide)

theorem atoi_value_decimal (f : List Char) (h : is_decimal_integer f = true) :
    atoi_value f = decimal_value f := by
  cases f with
  | nil => simp [is_decimal_integer] at h
  | cons c cs =>
    unfold is_decimal_integer at h
    by_cases hm : c = '-'
    · subst hm
      simp only [true_or, if_true, is_digits, Bool.and_eq_true] at h
      have hs : skip_space ('-' :: cs) = '-' :: cs := by
        simp [skip_space, show isspace '-' = false by decide]
      simp [atoi_value, hs, decimal_value, digits_value, atoi_digits_eq cs 0 h.2]
    · by_cases hp : c = '+'
      · subst hp
        simp only [or_true, if_true, is_digits, Bool.and_eq_true] at h
        have hs : skip_space ('+' :: cs) = '+' :: cs := by
          simp [skip_space, show isspace '+' = false by decide]
        simp [atoi_value, hs, decimal_value, digits_value, atoi_digits_eq cs 0 h.2,
          show ('+' : Char) ≠ '-' by decide]
      · simp only [hm, hp, or_self, if_false, is_digits, Bool.and_eq_true] at h
        have hd : isdigit c = true := by
          have := h.2
          simp only [List.all_cons, Bool.and_eq_true] at this
          exact this.1
        have hs : skip_space (c :: cs) = c :: cs := by
          simp [skip_space, isdigit_not_space c hd]
        simp [atoi_value, hs, decimal_value, digits_value, hm, hp, atoi_digits_eq (c :: cs) 0 h.2]

theorem digits_no_comma (ds : List Char) (h : ds.all isdigit = true) : ',' ∉ ds := by
  intro hmem
  have := List.all_eq_true.mp h ',' hmem
  exact absurd this (by decide)

theorem decimal_is_token (f : List Char) (h : is_decimal_integer f = true) : token_field f := by
  cases f with
  | nil => simp [is_decimal_integer] at h
  | cons c cs =>
    refine ⟨by simp, ?_⟩
    unfold is_decimal_integer at h
    by_cases hs : c = '-' ∨ c = '+'
    · simp only [hs, if_true, is_digits, Bool.and_eq_true] at h
      have hc : (',' : Char) ≠ c := by
        rcases hs with e | e <;> rw [e] <;> decide
      simp [hc, digits_no_comma cs h.2]
    · simp only [hs, if_false, is_digits, Bool.and_eq_true] at h
      exact digits_no_comma (c :: cs) h.2

theorem atoi_int_field (f : List Char) (h : int_field f) :
    atoi (some f) = ret (decimal_value f) := by
  obtain ⟨hd, hlo, hhi⟩ := h
  simp [atoi, atoi_value_decimal f hd, hlo, hhi]

theorem dec2bcd_eq_bcd_byte : ∀ d < 100, dec2bcd d = bcd_byte d := by
  decide

theorem dec2bcd_field (x : Int) (h0 : 0 ≤ x) (h1 : x ≤ 99) :
    dec2bcd (to_uint8 x) = bcd_byte x.toNat := by
  have hx : to_uint8 x = x.toNat := by
    unfold to_uint8; omega
  rw [hx]
  exact dec2bcd_eq_bcd_byte _ (by omega)

theorem check_and_encode_valid (f : Fields) (h : valid_record f) :
    check_and_encode f = bus_write (record_bytes f) := by
  obtain ⟨⟨a1, a2⟩, ⟨b1, b2⟩, ⟨c1, c2⟩, ⟨d1, d2⟩, ⟨e1, e2⟩, ⟨m1, m2⟩, ⟨y1, y2⟩, hday⟩ := h
  have ht : f.year.tmod 4 = f.year % 4 := Int.tmod_eq_emod y1 (by decide)
  unfold days_in_month at hday
  unfold check_and_encode
  rw [ht]
  rw [if_neg (by omega)]
  rw [if_neg (by intro hh; rw [if_pos hh.2.1, if_pos hh.1] at hday; omega)]
  rw [if_neg (by intro hh; rw [if_pos hh.2.1, if_neg hh.1] at hday; omega)]
  rw [if_neg (by
    intro hh
    split at hday
    · omega
    · split at hday <;> omega)]
  simp only [record_bytes, dec2bcd_field _ a1 (by omega : f.sec ≤ 99),
    dec2bcd_field _ b1 (by omega : f.min ≤ 99), dec2bcd_field _ c1 (by omega : f.hour ≤ 99),
    dec2bcd_field _ (by omega : 0 ≤ f.dow) (by omega : f.dow ≤ 99),
    dec2bcd_field _ (by omega : 0 ≤ f.day) (by omega : f.day ≤ 99),
    dec2bcd_field _ (by omega : 0 ≤ f.month) (by omega : f.month ≤ 99),
    dec2bcd_field _ y1 y2]

theorem check_and_encode_invalid (f : Fields) (h : ¬ valid_record f) :
    check_and_encode f = rejected := by
  unfold check_and_encode
  by_cases hr : f.sec < 0 ∨ f.sec > 59 ∨ f.min < 0 ∨ f.min > 59 ∨ f.hour < 0 ∨ f.hour > 23 ∨
      f.dow < 1 ∨ f.dow > 7 ∨ f.day < 1 ∨ f.day > 31 ∨ f.month < 1 ∨ f.month > 12 ∨
      f.year < 0 ∨ f.year > 99
  · rw [if_pos hr]
  · rw [if_neg hr]
    have ht : f.year.tmod 4 = f.year % 4 := Int.tmod_eq_emod (by omega) (by decide)
    rw [ht]
    have hday : ¬ f.day ≤ days_in_month f.month f.year := by
      intro hd
      apply h
      unfold valid_record
      refine ⟨⟨?_, ?_⟩, ⟨?_, ?_⟩, ⟨?_, ?_⟩, ⟨?_, ?_⟩, ⟨?_, ?_⟩, ⟨?_, ?_⟩, ⟨?_, ?_⟩, hd⟩ <;> omega
    unfold days_in_month at hday
    by_cases hm : f.month = 2
    · rw [if_pos hm] at hday
      by_cases hy : f.year % 4 = 0
      · rw [if_pos hy] at hday
        rw [if_pos ⟨hy, hm, Or.inr (by omega)⟩]
      · rw [if_neg hy] at hday
        rw [if_neg (by intro hh; exact hy hh.1), if_pos ⟨hy, hm, Or.inr (by omega)⟩]
    · rw [if_neg hm] at hday
      rw [if_neg (by intro hh; exact hm hh.2.1), if_neg (by intro hh; exact hm hh.2.1)]
      split at hday
      · rw [if_pos (by omega)]
      · omega

theorem skip_delimiters_length (d s : List Char) :
    (skip_delimiters d s).length ≤ s.length := by
  induction s with
  | nil => simp [skip_delimiters]
  | cons c cs ih =>
    unfold skip_delimiters
    split
    · exact Nat.le_succ_of_le ih
    · exact Nat.le_refl _

theorem scan_token_length (d s : List Char) :
    (scan_token d s).2.length ≤ s.length := by
  induction s with
  | nil => simp [scan_token]
  | cons c cs ih =>
    unfold scan_token
    split
    · simp
    · exact Nat.le_succ_of_le ih

theorem scan_token_cons_length (d : List Char) (c : Char) (cs : List Char) :
    (scan_token d (c :: cs)).2.length ≤ cs.length := by
  unfold scan_token
  split
  · exact Nat.le_refl _
  · exact scan_token_length d cs

theorem strtok_advances (d s : List Char) (h : (strtok d s).1 ≠ none) :
    (strtok d s).2.length < s.length := by
  have hs := skip_delimiters_length d s
  unfold strtok at h ⊢
  split at h
  · exact absurd rfl h
  · rename_i c cs heq
    rw [heq] at hs
    simp only [heq]
    have := scan_token_cons_length d c cs
    simp only [List.length_cons] at hs
    omega

theorem atoi_has_fuel (ptr : Option (List Char)) : atoi ptr ≠ out_of_fuel := by
  unfold atoi
  split
  · simp
  · split <;> simp

theorem convert_field_has_fuel (position : Nat) (ptr : Option (List Char)) (f : Fields) :
    convert_field position ptr f ≠ out_of_fuel := by
  have h := atoi_has_fuel ptr
  unfold convert_field
  cases hat : atoi ptr with
  | ret v => simp only [Ret.ret_bind]; split_ifs <;> simp
  | undefined => simp only [Ret.undefined_bind]; split_ifs <;> simp
  | out_of_fuel => exact absurd hat h

theorem parse_loop_total (fuel : Nat) (ptr : Option (List Char)) (saved : List Char)
    (position : Nat) (f : Fields) (h : saved.length < fuel) :
    parse_loop fuel ptr saved position f ≠ out_of_fuel := by
  induction fuel generalizing ptr saved position f with
  | zero => exact absurd h (Nat.not_lt_zero _)
  | succ n ih =>
    cases ptr with
    | none => simp [parse_loop_done]
    | some t =>
      rw [parse_loop_step]
      cases hc : convert_field position (strtok delim saved).1 f with
      | out_of_fuel => exact absurd hc (convert_field_has_fuel _ _ _)
      | undefined => simp
      | ret g =>
        simp only [Ret.ret_bind]
        cases hp : (strtok delim saved).1 with
        | none => simp [parse_loop_done]
        | some u =>
          have hadv := strtok_advances delim saved (by rw [hp]; simp)
          rw [← hp]
          exact ih _ _ _ _ (by omega)

theorem strtok_saved_length (d s : List Char) : (strtok d s).2.length ≤ s.length := by
  by_cases h : (strtok d s).1 = none
  · unfold strtok at h ⊢
    split
    · simp
    · rename_i heq
      rw [heq] at h
      simp at h
  · exact Nat.le_of_lt (strtok_advances d s h)

theorem set_date_time_exit_total (date_time_str : List Char) :
    ds3231_set_date_time_exit date_time_str ≠ out_of_fuel := by
  unfold ds3231_set_date_time_exit
  simp only
  split
  · simp
  · cases ha : atoi (strtok delim date_time_str).1 with
    | out_of_fuel => exact absurd ha (atoi_has_fuel _)
    | undefined => simp
    | ret sec =>
      simp only [Ret.ret_bind]
      have hl := strtok_saved_length delim date_time_str
      have := parse_loop_total (date_time_str.length + 1) (strtok delim date_time_str).1
        (strtok delim date_time_str).2 0
        { sec := sec, min := 0, hour := 0, dow := 0, day := 0, month := 0, year := 0 } (by omega)
      cases hp : parse_loop (date_time_str.length + 1) (strtok delim date_time_str).1
        (strtok delim date_time_str).2 0
        { sec := sec, min := 0, hour := 0, dow := 0, day := 0, month := 0, year := 0 } with
      | out_of_fuel => exact absurd hp this
      | undefined => simp
      | ret g => simp

theorem count_fold_eq (l : List Char) (acc : Nat) (h : acc + l.count ',' < 256) :
    l.foldl (fun n c => if c = ',' then (n + 1) % 256 else n) acc = acc + l.count ',' := by
  induction l generalizing acc with
  | nil => simp
  | cons c cs ih =>
    by_cases hc : c = ','
    · subst hc
      simp only [List.count_cons_self] at h
      simp only [List.foldl_cons, if_true, List.count_cons_self]
      rw [Nat.mod_eq_of_lt (by omega), ih _ (by omega)]
      omega
    · have hcount : (c :: cs).count ',' = cs.count ',' := by
        simp [List.count_cons, hc]
      rw [hcount] at h ⊢
      simp only [List.foldl_cons, hc, if_false]
      exact ih _ h

theorem count_delimiters_short (s : List Char) (h : s.length < 256) :
    count_delimiters s (s.length % 256) = s.count ',' := by
  unfold count_delimiters
  rw [Nat.mod_eq_of_lt h, List.take_length]
  have := List.count_le_length ',' s
  rw [count_fold_eq s 0 (by omega)]
  omega

theorem short_input_wrong_count_rejected (s : List Char) (h : s.length < 256)
    (hc : s.count ',' ≠ 6) : ds3231_set_date_time_exit s = ret rejected := by
  unfold ds3231_set_date_time_exit
  simp only [count_delimiters_short s h]
  rw [if_pos hc]

/-- C1: for every set-time command shorter than 256 characters made of seven
decimal integer fields (each fitting a C `int`) separated by six commas,
`ds3231_set_date_time` takes a `return ESP_ERR_INVALID_ARG` exactly when the
record is not valid (a field out of range, or the day beyond the length of the
month), and otherwise goes on to the bus write with the BCD bytes of the seven
fields. -/
theorem set_date_time_rejects_iff_invalid (f1 f2 f3 f4 f5 f6 f7 : List Char)
    (h1 : int_field f1) (h2 : int_field f2) (h3 : int_field f3) (h4 : int_field f4)
    (h5 : int_field f5) (h6 : int_field f6) (h7 : int_field f7)
    (hlen : (join7 f1 f2 f3 f4 f5 f6 f7).length < 256) (env : Env) :
    (ds3231_set_date_time_exit (join7 f1 f2 f3 f4 f5 f6 f7) = ret rejected
      ↔ ¬ valid_record (decimal_record f1 f2 f3 f4 f5 f6 f7)) ∧
    (¬ valid_record (decimal_record f1 f2 f3 f4 f5 f6 f7) →
      ds3231_set_date_time env (join7 f1 f2 f3 f4 f5 f6 f7) = ret (ESP_ERR_INVALID_ARG, [])) ∧
    (valid_record (decimal_record f1 f2 f3 f4 f5 f6 f7) →
      ds3231_set_date_time_exit (join7 f1 f2 f3 f4 f5 f6 f7)
        = ret (bus_write (record_bytes (decimal_record f1 f2 f3 f4 f5 f6 f7))) ∧
      ds3231_set_date_time env (join7 f1 f2 f3 f4 f5 f6 f7)
        = ret (ds3231_write_data env DS3231_TIME_ADDRESS 1
            (record_bytes (decimal_record f1 f2 f3 f4 f5 f6 f7)) 7)) := by
  have hexit : ds3231_set_date_time_exit (join7 f1 f2 f3 f4 f5 f6 f7)
      = ret (check_and_encode (decimal_record f1 f2 f3 f4 f5 f6 f7)) := by
    rw [exit_join7 f1 f2 f3 f4 f5 f6 f7 (decimal_is_token f1 h1.1) (decimal_is_token f2 h2.1)
      (decimal_is_token f3 h3.1) (decimal_is_token f4 h4.1) (decimal_is_token f5 h5.1)
      (decimal_is_token f6 h6.1) (decimal_is_token f7 h7.1) hlen,
      atoi_int_field f1 h1, atoi_int_field f2 h2, atoi_int_field f3 h3, atoi_int_field f4 h4,
      atoi_int_field f5 h5, atoi_int_field f6 h6, atoi_int_field f7 h7]
    rfl
  refine ⟨?_, ?_, ?_⟩
  · constructor
    · intro hrej hv
      rw [hexit, check_and_encode_valid _ hv] at hrej
      simp at hrej
    · intro hv
      rw [hexit, check_and_encode_invalid _ hv]
  · intro hv
    simp [ds3231_set_date_time, hexit, check_and_encode_invalid _ hv]
  · intro hv
    refine ⟨by rw [hexit, check_and_encode_valid _ hv], ?_⟩
    simp [ds3231_set_date_time, hexit, check_and_encode_valid _ hv]

/-- The theorem `set_date_time_rejects_iff_invalid` at the commands
`0,0,0,1,29,2,0` (29 February 2000, written) and `0,0,0,1,29,2,1`
(29 February 2001, rejected). -/
theorem set_date_time_rejects_iff_invalid_witness :
    ds3231_set_date_time (bus_ready []) (join7 ['0'] ['0'] ['0'] ['1'] ['2', '9'] ['2'] ['0'])
      = ret (ds3231_write_data (bus_ready []) DS3231_TIME_ADDRESS 1
          (record_bytes (decimal_record ['0'] ['0'] ['0'] ['1'] ['2', '9'] ['2'] ['0'])) 7) ∧
    record_bytes (decimal_record ['0'] ['0'] ['0'] ['1'] ['2', '9'] ['2'] ['0'])
      = [0, 0, 0, 1, 0x29, 2, 0] ∧
    ds3231_set_date_time (bus_ready []) (join7 ['0'] ['0'] ['0'] ['1'] ['2', '9'] ['2'] ['1'])
      = ret (ESP_ERR_INVALID_ARG, []) :=
  ⟨((set_date_time_rejects_iff_invalid ['0'] ['0'] ['0'] ['1'] ['2', '9'] ['2'] ['0']
      (by decide) (by decide) (by decide) (by decide) (by decide) (by decide) (by decide)
      (by decide) (bus_ready [])).2.2 (by decide)).2,
    by decide,
    (set_date_time_rejects_iff_invalid ['0'] ['0'] ['0'] ['1'] ['2', '9'] ['2'] ['1']
      (by decide) (by decide) (by decide) (by decide) (by decide) (by decide) (by decide)
      (by decide) (bus_ready [])).2.1 (by decide)⟩

/-- C2 (as the code behaves): the command `long_command` has 269 characters and
seven commas, yet `ds3231_set_date_time` counts six of them (only the first
269 mod 256 = 13 characters are examined), passes the delimiter check and goes
on to write the time 00:00:00, day 1 of week, 1 January 2000.  The short
command `60,0,0,1,1,1,0` is rejected. -/
theorem long_command_passes_delimiter_check :
    long_command.length = 269 ∧ long_command.count ',' = 7 ∧
    count_delimiters long_command (long_command.length % 256) = 6 ∧
    ds3231_set_date_time_exit long_command = ret (bus_write [0, 0, 0, 1, 1, 1, 0]) ∧
    ds3231_set_date_time (bus_ready []) long_command
      = ret (ESP_OK, [take true, write 0x68 0x00 1 [0, 0, 0, 1, 1, 1, 0], give]) ∧
    ds3231_set_date_time (bus_ready []) (join7 ['6', '0'] ['0'] ['0'] ['1'] ['1'] ['1'] ['0'])
      = ret (ESP_ERR_INVALID_ARG, []) := by
  decide

/-- C3 (counterexample): the command `0,0,0,1,1,1,0x` has exactly six commas
and its last field `0x` is not a decimal integer, yet `ds3231_set_date_time`
does not return `ESP_ERR_INVALID_ARG`: it writes the record and returns the
result of the bus write. -/
theorem trailing_garbage_not_rejected :
    (join7 ['0'] ['0'] ['0'] ['1'] ['1'] ['1'] ['0', 'x']).count ',' = 6 ∧
    is_decimal_integer ['0', 'x'] = false ∧
    ds3231_set_date_time_exit (join7 ['0'] ['0'] ['0'] ['1'] ['1'] ['1'] ['0', 'x'])
      = ret (bus_write [0, 0, 0, 1, 1, 1, 0]) ∧
    ds3231_set_date_time (bus_ready []) (join7 ['0'] ['0'] ['0'] ['1'] ['1'] ['1'] ['0', 'x'])
      = ret (ESP_OK, [take true, write 0x68 0x00 1 [0, 0, 0, 1, 1, 1, 0], give]) := by
  decide

/-- C3 (amended): for every command shorter than 256 characters with six commas
and seven non-empty fields whose `atoi` values fit an `int`, decimal or not,
`ds3231_set_date_time` judges the record that `atoi` reads from the fields: it
takes a `return ESP_ERR_INVALID_ARG` exactly when that record is not valid, and
otherwise goes on to the bus write with its BCD bytes. -/
theorem set_date_time_judges_atoi_record (f1 f2 f3 f4 f5 f6 f7 : List Char)
    (h1 : atoi_field f1) (h2 : atoi_field f2) (h3 : atoi_field f3) (h4 : atoi_field f4)
    (h5 : atoi_field f5) (h6 : atoi_field f6) (h7 : atoi_field f7)
    (hlen : (join7 f1 f2 f3 f4 f5 f6 f7).length < 256) (env : Env) :
    (ds3231_set_date_time_exit (join7 f1 f2 f3 f4 f5 f6 f7) = ret rejected
      ↔ ¬ valid_record (atoi_record f1 f2 f3 f4 f5 f6 f7)) ∧
    (¬ valid_record (atoi_record f1 f2 f3 f4 f5 f6 f7) →
      ds3231_set_date_time env (join7 f1 f2 f3 f4 f5 f6 f7) = ret (ESP_ERR_INVALID_ARG, [])) ∧
    (valid_record (atoi_record f1 f2 f3 f4 f5 f6 f7) →
      ds3231_set_date_time env (join7 f1 f2 f3 f4 f5 f6 f7)
        = ret (ds3231_write_data env DS3231_TIME_ADDRESS 1
            (record_bytes (atoi_record f1 f2 f3 f4 f5 f6 f7)) 7)) := by
  have hat : ∀ f, atoi_field f → atoi (some f) = ret (atoi_value f) := by
    intro f hf
    simp [atoi, hf.2.1, hf.2.2]
  have hexit : ds3231_set_date_time_exit (join7 f1 f2 f3 f4 f5 f6 f7)
      = ret (check_and_encode (atoi_record f1 f2 f3 f4 f5 f6 f7)) := by
    rw [exit_join7 f1 f2 f3 f4 f5 f6 f7 h1.1 h2.1 h3.1 h4.1 h5.1 h6.1 h7.1 hlen,
      hat f1 h1, hat f2 h2, hat f3 h3, hat f4 h4, hat f5 h5, hat f6 h6, hat f7 h7]
    rfl
  refine ⟨?_, ?_, ?_⟩
  · constructor
    · intro hrej hv
      rw [hexit, check_and_encode_valid _ hv] at hrej
      simp at hrej
    · intro hv
      rw [hexit, check_and_encode_invalid _ hv]
  · intro hv
    simp [ds3231_set_date_time, hexit, check_and_encode_invalid _ hv]
  · intro hv
    simp [ds3231_set_date_time, hexit, check_and_encode_valid _ hv]

/-- The theorem `set_date_time_judges_atoi_record` at the commands
`abc,0,0,1,1,1,0` (the text `abc` is read as 0 and the record is written) and
`0,0,0,1,31,4x,0` (the text `4x` is read as April, which has no day 31). -/
theorem set_date_time_judges_atoi_record_witness :
    ds3231_set_date_time (bus_ready []) (join7 ['a', 'b', 'c'] ['0'] ['0'] ['1'] ['1'] ['1'] ['0'])
      = ret (ds3231_write_data (bus_ready []) DS3231_TIME_ADDRESS 1
          (record_bytes (atoi_record ['a', 'b', 'c'] ['0'] ['0'] ['1'] ['1'] ['1'] ['0'])) 7) ∧
    ds3231_set_date_time (bus_ready []) (join7 ['0'] ['0'] ['0'] ['1'] ['3', '1'] ['4', 'x'] ['0'])
      = ret (ESP_ERR_INVALID_ARG, []) :=
  ⟨(set_date_time_judges_atoi_record ['a', 'b', 'c'] ['0'] ['0'] ['1'] ['1'] ['1'] ['0']
      (by decide) (by decide) (by decide) (by decide) (by decide) (by decide) (by decide)
      (by decide) (bus_ready [])).2.2 (by decide),
    (set_date_time_judges_atoi_record ['0'] ['0'] ['0'] ['1'] ['3', '1'] ['4', 'x'] ['0']
      (by decide) (by decide) (by decide) (by decide) (by decide) (by decide) (by decide)
      (by decide) (bus_ready [])).2.1 (by decide)⟩

/-! ### Register codec -/


/-- C4 (as the code behaves): for every hour `h` in 0..23 the 12-hour register
byte of `h` is well formed (bit 6 set, bit 5 set exactly from noon on, low five
bits the BCD of the clock value, which lies in 1..12), yet the hour decoding of
`ds3231_get_date_time` never returns `h` for it: it returns one hour less than
the clock value, plus 12 in the afternoon. -/
theorem decode_hour_12h_never_roundtrips :
    ∀ h < 24,
      hour12_register_byte h &&& 0x40 = 0x40 ∧
      (hour12_register_byte h &&& 0x20 = 0x20 ↔ 12 ≤ h) ∧
      hour12_register_byte h &&& 0x1F = bcd_byte (clock12 h) ∧
      1 ≤ clock12 h ∧ clock12 h ≤ 12 ∧
      decode_hour (hour12_register_byte h)
        = (clock12 h : Int) - 1 + (if 12 ≤ h then 12 else 0) ∧
      decode_hour (hour12_register_byte h) ≠ (h : Int) := by
  decide

/-- C5: for every byte whose two nibbles are both at most 9,
`dec2bcd (bcd2dec b) = b` in 8-bit unsigned arithmetic. -/
theorem dec2bcd_bcd2dec :
    ∀ b < 256, b / 16 ≤ 9 → b % 16 ≤ 9 → dec2bcd (bcd2dec b) = b := by
  decide

/-- The theorem `dec2bcd_bcd2dec` at the byte 0x59. -/
theorem dec2bcd_bcd2dec_witness :
    0x59 / 16 ≤ 9 ∧ 0x59 % 16 ≤ 9 ∧ bcd2dec 0x59 = 59 ∧ dec2bcd (bcd2dec 0x59) = 0x59 :=
  ⟨by decide, by decide, by decide,
    dec2bcd_bcd2dec 0x59 (by decide) (by decide) (by decide)⟩

/-- The theorem `decode_hour_12h_never_roundtrips` at 1 o'clock in the morning:
the register byte is 0x41 and is decoded to `tm_hour = 0`. -/
theorem decode_hour_12h_never_roundtrips_witness :
    hour12_register_byte 1 = 0x41 ∧ decode_hour 0x41 = 0 ∧
      decode_hour (hour12_register_byte 1) ≠ ((1 : Nat) : Int) :=
  ⟨by decide, by decide, (decode_hour_12h_never_roundtrips 1 (by decide)).2.2.2.2.2.2⟩

/-- C6: for every decimal `d` in 0..99, `bcd2dec (dec2bcd d) = d`, and
`dec2bcd d` is the BCD byte with high nibble `d / 10` and low nibble `d % 10`. -/
theorem bcd2dec_dec2bcd :
    ∀ d < 100, bcd2dec (dec2bcd d) = d ∧ dec2bcd d = bcd_byte d ∧
      dec2bcd d / 16 = d / 10 ∧ dec2bcd d % 16 = d % 10 := by
  decide

/-- The theorem `bcd2dec_dec2bcd` at the decimal 59. -/
theorem bcd2dec_dec2bcd_witness :
    dec2bcd 59 = 0x59 ∧ bcd2dec (dec2bcd 59) = 59 :=
  ⟨by decide, (bcd2dec_dec2bcd 59 (by decide)).1⟩

/-! ### Bus access -/

/-- C7 (as the code behaves): whenever the transport exchange is not attempted,
because no gate exists or because the gate could not be acquired, both
`ds3231_read_data` and `ds3231_write_data` return `ESP_OK`, leave the receive
buffer as it was, and record no transport event. -/
theorem no_exchange_returns_ok (env : Env) (address address_size : Nat)
    (buffer : List Nat) (size : Nat)
    (h : env.mutex_created = false ∨ env.take_ok = false) :
    (ds3231_read_data env address address_size buffer size).1 = ESP_OK ∧
    (ds3231_read_data env address address_size buffer size).2.1 = buffer ∧
    (ds3231_read_data env address address_size buffer size).2.2.filter is_transport = [] ∧
    (ds3231_write_data env address address_size buffer size).1 = ESP_OK ∧
    (ds3231_write_data env address address_size buffer size).2.filter is_transport = [] := by
  unfold ds3231_read_data ds3231_write_data
  rcases h with h | h
  · simp [h]
  · cases hm : env.mutex_created <;> simp [h, is_transport]

/-- The theorem `no_exchange_returns_ok` for a driver that was never
initialised: the status read returns `ESP_OK` without any event. -/
theorem no_exchange_returns_ok_witness :
    ds3231_read_data bus_uninitialised DS3231_STATUS_REGISTER_ADDRESS 1 [0] 1 = (ESP_OK, [0], []) ∧
    (ds3231_read_data bus_uninitialised DS3231_STATUS_REGISTER_ADDRESS 1 [0] 1).1 = ESP_OK :=
  ⟨by decide,
    (no_exchange_returns_ok bus_uninitialised DS3231_STATUS_REGISTER_ADDRESS 1 [0] 1
      (Or.inl (by decide))).1⟩

/-- C8 (as the code behaves): with an initialised gate, every call of
`ds3231_read_data` or `ds3231_write_data` releases the gate exactly once,
whether or not it acquired it; after a failed acquisition the call has zero
acquisitions and still one release. -/
theorem gate_released_on_every_path (env : Env) (address address_size : Nat)
    (buffer : List Nat) (size : Nat) (h : env.mutex_created = true) :
    releases (ds3231_read_data env address address_size buffer size).2.2 = 1 ∧
    releases (ds3231_write_data env address address_size buffer size).2 = 1 ∧
    acquisitions (ds3231_read_data env address address_size buffer size).2.2
      = (if env.take_ok then 1 else 0) ∧
    acquisitions (ds3231_write_data env address address_size buffer size).2
      = (if env.take_ok then 1 else 0) := by
  unfold ds3231_read_data ds3231_write_data releases acquisitions
  cases ht : env.take_ok <;> simp [h, List.count_cons]

/-- The theorem `gate_released_on_every_path` when another task holds the gate
past the wait bound: the gate is not acquired and is released all the same. -/
theorem gate_released_on_every_path_witness :
    (ds3231_read_data bus_busy DS3231_TIME_ADDRESS 1 [0, 0, 0, 0, 0, 0, 0] 7).2.2
      = [take false, give] ∧
    acquisitions (ds3231_read_data bus_busy DS3231_TIME_ADDRESS 1 [0, 0, 0, 0, 0, 0, 0] 7).2.2 = 0 ∧
    releases (ds3231_read_data bus_busy DS3231_TIME_ADDRESS 1 [0, 0, 0, 0, 0, 0, 0] 7).2.2 = 1 :=
  ⟨by decide, by decide,
    (gate_released_on_every_path bus_busy DS3231_TIME_ADDRESS 1 [0, 0, 0, 0, 0, 0, 0] 7
      (by decide)).1⟩

/-! ### Power-loss acknowledgment -/

/-- The byte the `OK` command computes from the cached status: bit 7 cleared. -/
theorem ok_command_byte :
    ∀ s : Nat, s < 256 →
      to_uint8 (int_and ((s : Nat) : Int) (int_not (int_shl 1 7))) = s &&& 0x7F := by
  decide

/-- Clearing bit 7 of a byte that has it set keeps the other seven bits. -/
theorem and_7F_keeps_low_bits :
    ∀ s : Nat, s < 256 → s &&& 0x80 = 0x80 →
      s >>> 7 = 1 ∧ (s &&& 0x7F) &&& 0x80 = 0 ∧ (s &&& 0x7F) % 128 = s % 128 ∧
        s &&& 0x7F = s - 128 := by
  decide

/-- C9: for every status byte `s` with bit 7 set, the power-loss check that
reads `s` yields flag 1 and raw status `s`, and the `OK` command that follows
calls `ds3231_write_data` for register 0x0F with the single byte `s & 0x7F`
(bit 7 cleared, the other seven bits unchanged); when the gate is acquired the
transport sees exactly that one write. -/
theorem power_lost_then_ok_writes_cleared_status (s : Nat) (hs : s < 256)
    (h7 : s &&& 0x80 = 0x80) (env : Env) :
    ds3231_power_lost (bus_ready [s]) 0 0
      = (ESP_OK, 1, s, [take true, write_read 0x68 0x0F 1 1, give]) ∧
    (app_main_power_check (bus_ready [s])).1
      = some { osf_bit_value := 1, status_reg_value := s } ∧
    (serial_ok_command env { osf_bit_value := 1, status_reg_value := s }).2
      = (ds3231_write_data env 0x0F 1 [s &&& 0x7F] 1).2 ∧
    (env.mutex_created = true → env.take_ok = true →
      (serial_ok_command env { osf_bit_value := 1, status_reg_value := s }).2.filter is_transport
        = [write 0x68 0x0F 1 [s &&& 0x7F]]) ∧
    (s &&& 0x7F) &&& 0x80 = 0 ∧ (s &&& 0x7F) % 128 = s % 128 := by
  obtain ⟨hflag, hclr, hkeep, -⟩ := and_7F_keeps_low_bits s hs h7
  have hbyte := ok_command_byte s hs
  have hpl : ds3231_power_lost (bus_ready [s]) 0 0
      = (ESP_OK, 1, s, [take true, write_read 0x68 0x0F 1 1, give]) := by
    simp [ds3231_power_lost, ds3231_read_data, bus_ready, hflag, to_uint8,
      DS3231_STATUS_REGISTER_ADDRESS, DS3231_ADDRESS]
  refine ⟨hpl, ?_, ?_, ?_, hclr, hkeep⟩
  · simp [app_main_power_check, hpl]
  · simp only [serial_ok_command, hbyte, DS3231_STATUS_REGISTER_ADDRESS]
    simp only [ds3231_write_data]
    cases env.mutex_created <;> cases env.take_ok <;> simp
    split <;> rfl
  · intro hm ht
    simp only [serial_ok_command, hbyte, DS3231_STATUS_REGISTER_ADDRESS]
    simp only [ds3231_write_data, hm, ht]
    simp [is_transport, DS3231_ADDRESS]
    split <;> simp [is_transport]

/-- The theorem `power_lost_then_ok_writes_cleared_status` at the status byte
0x88 on a ready bus: the byte 0x08 is written to register 0x0F. -/
theorem power_lost_then_ok_writes_cleared_status_witness :
    (0x88 &&& 0x80 = 0x80) ∧
    serial_ok_command (bus_ready []) { osf_bit_value := 1, status_reg_value := 0x88 }
      = (some { osf_bit_value := 1, status_reg_value := 0 },
          [take true, write 0x68 0x0F 1 [0x08], give]) ∧
    (serial_ok_command (bus_ready []) { osf_bit_value := 1, status_reg_value := 0x88 }).2.filter
        is_transport = [write 0x68 0x0F 1 [0x88 &&& 0x7F]] :=
  ⟨by decide, by decide,
    (power_lost_then_ok_writes_cleared_status 0x88 (by decide) (by decide) (bus_ready [])).2.2.2.1
      rfl rfl⟩

/-! ### Temperature -/

/-- The bitwise expression of `ds3231_get_temperature`, for each signed high
byte and each two-bit fraction. -/
theorem quarters_bits :
    ∀ msb < 256, ∀ r < 4,
      int_or (int_shl (to_int16 (to_int8 msb)) 2) ((r : Nat) : Int)
        = 4 * to_int8 msb + ((r : Nat) : Int) := by
  decide

/-- The integer multiplied by 0.25 is four times the signed high byte plus the
top two bits of the low byte. -/
theorem temperature_quarters_eq (msb lsb : Nat) (hm : msb < 256) (hl : lsb < 256) :
    temperature_quarters msb lsb = 4 * to_int8 msb + ((lsb >>> 6 : Nat) : Int) := by
  unfold temperature_quarters
  have h : lsb >>> 6 < 4 := by
    rw [Nat.shiftRight_eq_div_pow]; omega
  exact quarters_bits msb hm _ h

/-- Every integer in -512..511 is the value of `temperature_quarters` at some
pair of register bytes. -/
theorem quarters_attained (q : Int) (h1 : -512 ≤ q) (h2 : q ≤ 511) :
    ∃ msb lsb : Nat, msb < 256 ∧ lsb < 256 ∧ temperature_quarters msb lsb = q := by
  refine ⟨to_uint8 (q / 4), 64 * (q % 4).toNat, ?_, ?_, ?_⟩
  · unfold to_uint8; omega
  · omega
  · rw [temperature_quarters_eq _ _ (by unfold to_uint8; omega) (by omega),
      Nat.shiftRight_eq_div_pow]
    unfold to_int8 to_uint8
    split <;> omega

/-- C10: for every pair of register bytes `(msb, lsb)` returned by a successful
read, `ds3231_get_temperature` yields `q * 0.25` with
`q = 4 * s + (lsb >> 6)`, `s` the high byte read as a signed 8-bit integer;
`q` lies in -512..511 (and every such value occurs), the six low bits of `lsb` have no effect, and when the
read returns an error the output is left unchanged. -/
theorem get_temperature_value (env : Env) (data0 data1 : Nat) (temp : ℚ)
    (msb lsb : Nat) (hm : msb < 256) (hl : lsb < 256) :
    (env.mutex_created = true → env.take_ok = true → env.transport_result = ESP_OK →
      env.rx_data = [msb, lsb] →
      (ds3231_get_temperature env data0 data1 temp).1 = ESP_OK ∧
      (ds3231_get_temperature env data0 data1 temp).2.1
        = ((4 * to_int8 msb + ((lsb >>> 6 : Nat) : Int) : Int) : ℚ) * 0.25) ∧
    (-512 ≤ 4 * to_int8 msb + ((lsb >>> 6 : Nat) : Int) ∧
      4 * to_int8 msb + ((lsb >>> 6 : Nat) : Int) ≤ 511) ∧
    (∀ q : Int, -512 ≤ q → q ≤ 511 →
      ∃ m l : Nat, m < 256 ∧ l < 256 ∧ temperature_quarters m l = q) ∧
    (∀ lsb2, lsb2 < 256 → lsb2 >>> 6 = lsb >>> 6 →
      temperature_quarters msb lsb2 = temperature_quarters msb lsb) ∧
    ((ds3231_get_temperature env data0 data1 temp).1 ≠ ESP_OK →
      (ds3231_get_temperature env data0 data1 temp).2.1 = temp) := by
  refine ⟨?_, ?_, quarters_attained, ?_, ?_⟩
  · intro h1 h2 h3 h4
    simp [ds3231_get_temperature, ds3231_read_data, h1, h2, h3, h4,
      temperature_quarters_eq msb lsb hm hl]
  · have h : lsb >>> 6 < 4 := by
      rw [Nat.shiftRight_eq_div_pow]; omega
    unfold to_int8
    split <;> omega
  · intro lsb2 h2 he
    rw [temperature_quarters_eq msb lsb2 hm h2, temperature_quarters_eq msb lsb hm hl, he]
  · intro hne
    unfold ds3231_get_temperature at hne ⊢
    split at hne
    rename_i result data events heq
    by_cases hr : result = ESP_OK
    · simp [hr] at hne
    · simp [hr]

/-- The theorem `get_temperature_value` at the register pair (0xE7, 0x40),
which is -24.75 degrees. -/
theorem get_temperature_value_witness :
    (ds3231_get_temperature (bus_ready [0xE7, 0x40]) 0 0 0).2.1
      = (((4 * to_int8 0xE7 + ((0x40 >>> 6 : Nat) : Int) : Int) : ℚ) * 0.25) ∧
    4 * to_int8 0xE7 + ((0x40 >>> 6 : Nat) : Int) = -99 :=
  ⟨((get_temperature_value (bus_ready [0xE7, 0x40]) 0 0 0 0xE7 0x40 (by decide) (by decide)).1
      rfl rfl rfl rfl).2, by decide⟩

/-! ### The status snapshot after the acknowledgment -/

/-- The `OK` command never changes `osf_bit_value`. -/
theorem ok_command_keeps_flag (env : Env) (g g2 : Globals)
    (h : (serial_ok_command env g).1 = some g2) : g2.osf_bit_value = g.osf_bit_value := by
  unfold serial_ok_command at h
  by_cases hosf : g.osf_bit_value ≠ 0
  · rw [if_pos hosf] at h
    dsimp only at h
    by_cases hr : (ds3231_write_data env DS3231_STATUS_REGISTER_ADDRESS 1
        [to_uint8 (int_and (g.status_reg_value : Int) (int_not (int_shl 1 7)))] 1).1 = ESP_OK
    · rw [if_pos hr] at h
      simp only [Option.some.injEq] at h
      rw [← h]
    · rw [if_neg hr] at h
      simp at h
  · rw [if_neg hosf] at h
    simp only [Option.some.injEq] at h
    rw [← h]

/-- C11 (as the code behaves): the startup check sets both globals, but the
`OK` command handled while the flag is pending clears only `status_reg_value`:
`osf_bit_value` stays 1 (no `OK` command ever changes it), so on a ready bus a
second `OK` command takes the same branch and writes again to register 0x0F,
this time the byte 0. -/
theorem ok_command_writes_again (s : Nat) (hs : s < 256) (h7 : s &&& 0x80 = 0x80) :
    (app_main_power_check (bus_ready [s])).1
      = some { osf_bit_value := 1, status_reg_value := s } ∧
    serial_ok_command (bus_ready []) { osf_bit_value := 1, status_reg_value := s }
      = (some { osf_bit_value := 1, status_reg_value := 0 },
          [take true, write 0x68 0x0F 1 [s &&& 0x7F], give]) ∧
    serial_ok_command (bus_ready []) { osf_bit_value := 1, status_reg_value := 0 }
      = (some { osf_bit_value := 1, status_reg_value := 0 },
          [take true, write 0x68 0x0F 1 [0], give]) ∧
    (∀ (env : Env) (g g2 : Globals), (serial_ok_command env g).1 = some g2 →
      g2.osf_bit_value = g.osf_bit_value) := by
  obtain ⟨hflag, -, -, -⟩ := and_7F_keeps_low_bits s hs h7
  have hbyte := ok_command_byte s hs
  refine ⟨?_, ?_, by decide, ok_command_keeps_flag⟩
  · simp [app_main_power_check, ds3231_power_lost, ds3231_read_data, bus_ready, hflag, to_uint8]
  · simp only [serial_ok_command, hbyte]
    simp [ds3231_write_data, bus_ready, DS3231_STATUS_REGISTER_ADDRESS, DS3231_ADDRESS]

/-- The theorem `ok_command_writes_again` at the startup status byte 0x88: the
first `OK` writes 0x08 and leaves the flag at 1, the second `OK` writes 0x00. -/
theorem ok_command_writes_again_witness :
    serial_ok_command (bus_ready []) { osf_bit_value := 1, status_reg_value := 0x88 }
      = (some { osf_bit_value := 1, status_reg_value := 0 },
          [take true, write 0x68 0x0F 1 [0x88 &&& 0x7F], give]) ∧
    serial_ok_command (bus_ready []) { osf_bit_value := 1, status_reg_value := 0 }
      = (some { osf_bit_value := 1, status_reg_value := 0 },
          [take true, write 0x68 0x0F 1 [0], give]) :=
  ⟨(ok_command_writes_again 0x88 (by decide) (by decide)).2.1,
    (ok_command_writes_again 0x88 (by decide) (by decide)).2.2.1⟩

/-! ### Write-then-read round trip of the registers -/

/-- Decoding the BCD byte of a two-digit decimal gives the decimal back. -/
theorem bcd2dec_bcd_byte : ∀ d < 100, bcd2dec (bcd_byte d) = d := by
  decide

/-- The BCD byte of an hour in 0..23 has bit 6 clear and is decoded as 24-hour. -/
theorem decode_hour_bcd_byte :
    ∀ h < 24, decode_hour (bcd_byte h) = ((h : Nat) : Int) ∧ bcd_byte h &&& DS3231_12HOUR_FLAG = 0 := by
  decide

/-- The month mask keeps the BCD byte of a month. -/
theorem decode_month_bcd_byte :
    ∀ m < 13, bcd2dec (to_uint8 ((bcd_byte m &&& DS3231_MONTH_MASK : Nat) : Int)) = m := by
  decide

/-- A record reaches the bus write only if it is valid, and then with its BCD bytes. -/
theorem check_and_encode_bus_write (f : Fields) (data : List Nat)
    (h : check_and_encode f = bus_write data) : valid_record f ∧ data = record_bytes f := by
  by_cases hv : valid_record f
  · rw [check_and_encode_valid f hv] at h
    simp only [SetDateTimeExit.bus_write.injEq] at h
    exact ⟨hv, h.symm⟩
  · rw [check_and_encode_invalid f hv] at h
    simp at h

/-- C12: for every record that passes the validation of `ds3231_set_date_time`,
the seven bytes written to register 0x00 are the BCD bytes of the fields in
the order sec, min, hour, dow, day, month, year, and the register decoding of
`ds3231_get_date_time` turns them into `tm_sec = sec`, `tm_min = min`,
`tm_hour = hour`, `tm_wday = dow - 1`, `tm_mday = day`, `tm_mon = month - 1`,
`tm_year = year + 100`; the written hour byte has bit 6 clear. -/
theorem written_bytes_decode_back (f : Fields) (data : List Nat)
    (h : check_and_encode f = bus_write data) :
    data = [dec2bcd (to_uint8 f.sec), dec2bcd (to_uint8 f.min), dec2bcd (to_uint8 f.hour),
      dec2bcd (to_uint8 f.dow), dec2bcd (to_uint8 f.day), dec2bcd (to_uint8 f.month),
      dec2bcd (to_uint8 f.year)] ∧
    data = record_bytes f ∧
    (ds3231_write_data (bus_ready []) DS3231_TIME_ADDRESS 1 data 7).2
      = [take true, write 0x68 0x00 1 data, give] ∧
    decode_registers (dec2bcd (to_uint8 f.sec)) (dec2bcd (to_uint8 f.min))
        (dec2bcd (to_uint8 f.hour)) (dec2bcd (to_uint8 f.dow)) (dec2bcd (to_uint8 f.day))
        (dec2bcd (to_uint8 f.month)) (dec2bcd (to_uint8 f.year))
      = { tm_sec := f.sec, tm_min := f.min, tm_hour := f.hour, tm_wday := f.dow - 1,
          tm_mday := f.day, tm_mon := f.month - 1, tm_year := f.year + 100, tm_isdst := 0 } ∧
    dec2bcd (to_uint8 f.hour) &&& 0x40 = 0 := by
  obtain ⟨hv, hdata⟩ := check_and_encode_bus_write f data h
  have hce := check_and_encode_valid f hv
  obtain ⟨⟨a1, a2⟩, ⟨b1, b2⟩, ⟨c1, c2⟩, ⟨d1, d2⟩, ⟨e1, e2⟩, ⟨m1, m2⟩, ⟨y1, y2⟩, -⟩ := hv
  have hs := dec2bcd_field f.sec a1 (by omega)
  have hmi := dec2bcd_field f.min b1 (by omega)
  have hh := dec2bcd_field f.hour c1 (by omega)
  have hw := dec2bcd_field f.dow (by omega) (by omega)
  have hd := dec2bcd_field f.day (by omega) (by omega)
  have hmo := dec2bcd_field f.month (by omega) (by omega)
  have hy := dec2bcd_field f.year y1 y2
  have hhour := decode_hour_bcd_byte f.hour.toNat (by omega)
  refine ⟨?_, hdata, ?_, ?_, ?_⟩
  · rw [hdata, record_bytes, hs, hmi, hh, hw, hd, hmo, hy]
  · rw [hdata]
    simp [ds3231_write_data, bus_ready, record_bytes, DS3231_ADDRESS, DS3231_TIME_ADDRESS]
  · rw [hs, hmi, hh, hw, hd, hmo, hy]
    unfold decode_registers
    rw [bcd2dec_bcd_byte _ (by omega : f.sec.toNat < 100),
      bcd2dec_bcd_byte _ (by omega : f.min.toNat < 100), hhour.1,
      bcd2dec_bcd_byte _ (by omega : f.dow.toNat < 100),
      bcd2dec_bcd_byte _ (by omega : f.day.toNat < 100),
      decode_month_bcd_byte _ (by omega : f.month.toNat < 13),
      bcd2dec_bcd_byte _ (by omega : f.year.toNat < 100)]
    rw [Int.toNat_of_nonneg a1, Int.toNat_of_nonneg b1, Int.toNat_of_nonneg c1,
      Int.toNat_of_nonneg (by omega : 0 ≤ f.dow), Int.toNat_of_nonneg (by omega : 0 ≤ f.day),
      Int.toNat_of_nonneg (by omega : 0 ≤ f.month), Int.toNat_of_nonneg y1]
  · rw [hh]
    exact hhour.2

/-- The theorem `written_bytes_decode_back` at 23:58:59 on day 7 of the week,
31 December 2099. -/
theorem written_bytes_decode_back_witness :
    check_and_encode
        { sec := 59, min := 58, hour := 23, dow := 7, day := 31, month := 12, year := 99 }
      = bus_write [0x59, 0x58, 0x23, 0x07, 0x31, 0x12, 0x99] ∧
    decode_registers (dec2bcd (to_uint8 59)) (dec2bcd (to_uint8 58)) (dec2bcd (to_uint8 23))
        (dec2bcd (to_uint8 7)) (dec2bcd (to_uint8 31)) (dec2bcd (to_uint8 12))
        (dec2bcd (to_uint8 99))
      = { tm_sec := 59, tm_min := 58, tm_hour := 23, tm_wday := 7 - 1, tm_mday := 31,
          tm_mon := 12 - 1, tm_year := 99 + 100, tm_isdst := 0 } :=
  ⟨by decide,
    (written_bytes_decode_back
      { sec := 59, min := 58, hour := 23, dow := 7, day := 31, month := 12, year := 99 }
      [0x59, 0x58, 0x23, 0x07, 0x31, 0x12, 0x99] (by decide)).2.2.2.1⟩

/-! ### Empty fields of the set-time command -/

/-- A command of seven fields is the comma-separated list of its fields. -/
theorem join7_eq_join_fields (f1 f2 f3 f4 f5 f6 f7 : List Char) :
    join7 f1 f2 f3 f4 f5 f6 f7 = join_fields [f1, f2, f3, f4, f5, f6, f7] := rfl

/-- `strtok` skips a leading comma. -/
theorem strtok_skip_comma (rest : List Char) :
    strtok delim (',' :: rest) = strtok delim rest := by
  unfold strtok
  have : skip_delimiters delim (',' :: rest) = skip_delimiters delim rest := by
    simp [skip_delimiters, delim]
  rw [this]

/-- `strtok` on a comma-separated list of fields returns the first field that is
not empty and leaves the fields after it. -/
theorem strtok_join_fields (fs : List (List Char)) (h : ∀ f ∈ fs, ',' ∉ f) :
    strtok delim (join_fields fs)
      = match fs.dropWhile (fun f => f.isEmpty) with
        | [] => (none, [])
        | f :: rest => (some f, join_fields rest) := by
  induction fs with
  | nil => rfl
  | cons f fs ih =>
    have hf : ',' ∉ f := h f (by simp)
    have hfs : ∀ g ∈ fs, ',' ∉ g := fun g hg => h g (by simp [hg])
    cases f with
    | nil =>
      cases fs with
      | nil => rfl
      | cons g gs =>
        have := ih hfs
        simp only [join_fields, List.nil_append, strtok_skip_comma, List.dropWhile_cons,
          List.isEmpty_nil, if_true] at this ⊢
        exact this
    | cons c cs =>
      have ht : token_field (c :: cs) := ⟨by simp, hf⟩
      cases fs with
      | nil => simp [join_fields, strtok_last _ ht, List.dropWhile]
      | cons g gs =>
        have hst := strtok_field (c :: cs) (join_fields (g :: gs)) ht
        simp only [join_fields, List.dropWhile_cons, List.isEmpty_cons, Bool.false_eq_true,
          if_false]
        exact hst

/-- The fields after the first one that is not empty. -/
theorem dropWhile_empty_cons (fs : List (List Char)) (f : List Char) (rest : List (List Char))
    (h : fs.dropWhile (fun g => g.isEmpty) = f :: rest) :
    fs.filter (fun g => !g.isEmpty) = f :: rest.filter (fun g => !g.isEmpty) ∧
      rest.length < fs.length ∧ ∀ g ∈ rest, g ∈ fs := by
  induction fs with
  | nil => simp at h
  | cons a as ih =>
    by_cases ha : a.isEmpty = true
    · rw [List.dropWhile_cons_of_pos ha] at h
      obtain ⟨h1, h2, h3⟩ := ih h
      refine ⟨?_, ?_, ?_⟩
      · simp [List.filter_cons, ha, h1]
      · simp only [List.length_cons]; omega
      · intro g hg; simp [h3 g hg]
    · rw [List.dropWhile_cons_of_neg ha] at h
      simp only [List.cons.injEq] at h
      obtain ⟨h1, h2⟩ := h
      subst h1 h2
      refine ⟨?_, ?_, ?_⟩
      · simp [List.filter_cons, ha]
      · simp
      · intro g hg; simp [hg]

/-- When every field is empty, no field is left. -/
theorem dropWhile_empty_nil (fs : List (List Char))
    (h : fs.dropWhile (fun g => g.isEmpty) = []) :
    fs.filter (fun g => !g.isEmpty) = [] := by
  induction fs with
  | nil => rfl
  | cons a as ih =>
    by_cases ha : a.isEmpty = true
    · rw [List.dropWhile_cons_of_pos ha] at h
      simp [List.filter_cons, ha, ih h]
    · rw [List.dropWhile_cons_of_neg ha] at h
      simp at h

/-- Call number `n + 1` of `strtok` returns the `n + 1`-th field that is not
empty, and `NULL` when there are not that many. -/
theorem nth_strtok_join_fields (n : Nat) (fs : List (List Char)) (h : ∀ f ∈ fs, ',' ∉ f) :
    nth_strtok n (join_fields fs) = (fs.filter (fun g => !g.isEmpty))[n]? := by
  induction n generalizing fs with
  | zero =>
    unfold nth_strtok
    rw [strtok_join_fields fs h]
    cases hd : fs.dropWhile (fun g => g.isEmpty) with
    | nil => simp [dropWhile_empty_nil fs hd]
    | cons f rest => simp [(dropWhile_empty_cons fs f rest hd).1]
  | succ n ih =>
    unfold nth_strtok
    rw [strtok_join_fields fs h]
    cases hd : fs.dropWhile (fun g => g.isEmpty) with
    | nil =>
      have := ih [] (by simp)
      simp only [join_fields] at this
      simp [dropWhile_empty_nil fs hd, this]
    | cons f rest =>
      obtain ⟨h1, -, h3⟩ := dropWhile_empty_cons fs f rest hd
      simp only []
      rw [ih rest (fun g hg => h g (h3 g hg)), h1]
      simp

/-- A conversion of `NULL` at one of the six positions of the loop is undefined. -/
theorem convert_field_null (position : Nat) (f : Fields) (h : position ≤ 5) :
    convert_field position none f = undefined := by
  unfold convert_field atoi
  split_ifs <;> first | rfl | omega

/-- When fewer fields remain than conversions are still to be done, the loop
applies `atoi` to `NULL`. -/
theorem parse_loop_short (n : Nat) (fs : List (List Char)) (fuel : Nat) (t : List Char)
    (position : Nat) (f : Fields) (hn : fs.length < n) (h : ∀ g ∈ fs, ',' ∉ g)
    (hpos : position + (fs.filter (fun g => !g.isEmpty)).length ≤ 5)
    (hfuel : (fs.filter (fun g => !g.isEmpty)).length < fuel) :
    parse_loop fuel (some t) (join_fields fs) position f = undefined := by
  induction n generalizing fs fuel t position f with
  | zero => exact absurd hn (Nat.not_lt_zero _)
  | succ n ih =>
    obtain ⟨k, rfl⟩ : ∃ k, fuel = k + 1 := ⟨fuel - 1, by omega⟩
    rw [parse_loop_step, strtok_join_fields fs h]
    cases hd : fs.dropWhile (fun g => g.isEmpty) with
    | nil =>
      simp only []
      rw [convert_field_null position f (by omega)]
      rfl
    | cons u rest =>
      obtain ⟨h1, h2, h3⟩ := dropWhile_empty_cons fs u rest hd
      rw [h1] at hpos hfuel
      simp only [List.length_cons] at hpos hfuel
      simp only []
      cases hc : convert_field position (some u) f with
      | out_of_fuel => exact absurd hc (convert_field_has_fuel _ _ _)
      | undefined => rfl
      | ret g =>
        simp only [Ret.ret_bind]
        rw [Nat.mod_eq_of_lt (by omega)]
        exact ih rest k u (position + 1) g (by omega) (fun g hg => h g (h3 g hg)) (by omega)
          (by omega)

/-- C13 (as the code behaves): for every command shorter than 256 characters
with exactly six commas in which at least one of the seven fields is empty,
the delimiter check passes, `strtok` returns fewer than seven tokens (its
seventh call returns `NULL`), and `ds3231_set_date_time` applies `atoi` to a
null pointer, which is undefined behaviour. -/
theorem empty_field_applies_atoi_to_null (f1 f2 f3 f4 f5 f6 f7 : List Char)
    (h1 : ',' ∉ f1) (h2 : ',' ∉ f2) (h3 : ',' ∉ f3) (h4 : ',' ∉ f4)
    (h5 : ',' ∉ f5) (h6 : ',' ∉ f6) (h7 : ',' ∉ f7)
    (hempty : f1 = [] ∨ f2 = [] ∨ f3 = [] ∨ f4 = [] ∨ f5 = [] ∨ f6 = [] ∨ f7 = [])
    (hlen : (join7 f1 f2 f3 f4 f5 f6 f7).length < 256) :
    count_delimiters (join7 f1 f2 f3 f4 f5 f6 f7)
      ((join7 f1 f2 f3 f4 f5 f6 f7).length % 256) = 6 ∧
    nth_strtok 6 (join7 f1 f2 f3 f4 f5 f6 f7) = none ∧
    atoi none = undefined ∧
    ds3231_set_date_time_exit (join7 f1 f2 f3 f4 f5 f6 f7) = undefined ∧
    ∀ env : Env, ds3231_set_date_time env (join7 f1 f2 f3 f4 f5 f6 f7) = undefined := by
  have hcount := count_delimiters_join7 f1 f2 f3 f4 f5 f6 f7 h1 h2 h3 h4 h5 h6 h7 hlen
  have hfree : ∀ g ∈ [f1, f2, f3, f4, f5, f6, f7], ',' ∉ g := by
    intro g hg
    simp only [List.mem_cons, List.mem_singleton, List.not_mem_nil, or_false] at hg
    rcases hg with e | e | e | e | e | e | e <;> rw [e] <;> assumption
  have hex : ∃ x ∈ [f1, f2, f3, f4, f5, f6, f7], ¬ ((fun g : List Char => !g.isEmpty) x = true) := by
    rcases hempty with e | e | e | e | e | e | e <;> exact ⟨[], by simp [e], by simp⟩
  have hk : ([f1, f2, f3, f4, f5, f6, f7].filter (fun g => !g.isEmpty)).length < 7 :=
    List.length_filter_lt_length_iff_exists.mpr hex
  have hnth : nth_strtok 6 (join7 f1 f2 f3 f4 f5 f6 f7) = none := by
    rw [join7_eq_join_fields, nth_strtok_join_fields 6 _ hfree]
    exact List.getElem?_eq_none (by omega)
  have hexit : ds3231_set_date_time_exit (join7 f1 f2 f3 f4 f5 f6 f7) = undefined := by
    unfold ds3231_set_date_time_exit
    simp only [hcount, ne_eq, not_true_eq_false, if_false]
    rw [join7_eq_join_fields, strtok_join_fields _ hfree]
    cases hd : [f1, f2, f3, f4, f5, f6, f7].dropWhile (fun g => g.isEmpty) with
    | nil => rfl
    | cons u rest =>
      obtain ⟨e1, e2, e3⟩ := dropWhile_empty_cons _ u rest hd
      rw [e1] at hk
      simp only [List.length_cons, List.length_nil] at hk e2
      have hsix : 6 ≤ (join_fields [f1, f2, f3, f4, f5, f6, f7]).length := by
        simp only [join_fields, List.length_append, List.length_cons]
        omega
      simp only []
      cases ha : atoi (some u) with
      | out_of_fuel => exact absurd ha (atoi_has_fuel _)
      | undefined => rfl
      | ret sec =>
        simp only [Ret.ret_bind]
        rw [parse_loop_short 8 rest _ u 0 _ (by omega) (fun g hg => hfree g (e3 g hg)) (by omega)
          (by omega)]
        rfl
  refine ⟨hcount, hnth, rfl, hexit, ?_⟩
  intro env
  simp [ds3231_set_date_time, hexit]

/-- The theorem `empty_field_applies_atoi_to_null` at the commands
`1,,2,3,4,5,6` (six tokens: the call of `strtok` at `position` 5 returns
`NULL`) and `,,,,,,` (no token: the first call returns `NULL`). -/
theorem empty_field_applies_atoi_to_null_witness :
    nth_strtok 5 (join7 ['1'] [] ['2'] ['3'] ['4'] ['5'] ['6']) = some ['6'] ∧
    nth_strtok 6 (join7 ['1'] [] ['2'] ['3'] ['4'] ['5'] ['6']) = none ∧
    ds3231_set_date_time_exit (join7 ['1'] [] ['2'] ['3'] ['4'] ['5'] ['6']) = undefined ∧
    nth_strtok 0 (join7 [] [] [] [] [] [] []) = none ∧
    ds3231_set_date_time_exit (join7 [] [] [] [] [] [] []) = undefined :=
  ⟨by decide,
    (empty_field_applies_atoi_to_null ['1'] [] ['2'] ['3'] ['4'] ['5'] ['6']
      (by decide) (by decide) (by decide) (by decide) (by decide) (by decide) (by decide)
      (Or.inr (Or.inl rfl)) (by decide)).2.1,
    (empty_field_applies_atoi_to_null ['1'] [] ['2'] ['3'] ['4'] ['5'] ['6']
      (by decide) (by decide) (by decide) (by decide) (by decide) (by decide) (by decide)
      (Or.inr (Or.inl rfl)) (by decide)).2.2.2.1,
    by decide,
    (empty_field_applies_atoi_to_null [] [] [] [] [] [] []
      (by decide) (by decide) (by decide) (by decide) (by decide) (by decide) (by decide)
      (Or.inl rfl) (by decide)).2.2.2.1⟩

end DS3231
